import Mathlib

/-!
Shallow embedding of `crates/goose/src/agents/reply_parts.rs` (the
response-generation pipeline of the goose agent) and proofs about it.

External collaborators (providers, session store, toolshim interpreter,
prompt builder) are modelled as explicit data / function parameters, per the
spec's interface descriptions; everything else is translated directly from
the Rust source.  Token counts are `i32` in the source; they are embedded as
integers with explicit two's-complement wrapping (mod 2^32) at the one place
the code performs arithmetic on them.
-/

/-- Immutable capability descriptor (`rmcp::model::Tool`): identity is the name. -/
structure Tool where
  name : String
  description : String
  input_schema : String
deriving DecidableEq, Repr

/-- Message role (`rmcp` / goose conversation model). -/
inductive Role where
  | user
  | assistant
  | system
deriving DecidableEq, Repr

/-- A parsed tool call: name plus structured arguments (arguments kept opaque). -/
structure ToolCall where
  name : String
  arguments : String
deriving DecidableEq, Repr

deriving instance DecidableEq for Except

/-- `ToolRequest`: id plus either a parsed `ToolCall` or a parse error. -/
structure ToolRequest where
  id : String
  tool_call : Except String ToolCall
deriving DecidableEq, Repr

/-- `MessageContent` is polymorphic; only `ToolRequest` is interpreted by this
core, the other variants pass through opaquely (we keep representatives). -/
inductive MessageContent where
  | text (s : String)
  | toolRequest (req : ToolRequest)
  | toolResponse (id : String) (payload : String)
  | other (payload : String)
deriving DecidableEq, Repr

/-- `Message`: role, creation timestamp, ordered content, optional id. -/
structure Message where
  role : Role
  created : Int
  content : List MessageContent
  id : Option String
deriving DecidableEq, Repr

/-- `ProviderError` (`crate::providers::errors::ProviderError`), keeping the
constructor used by this file plus a representative transport failure. -/
inductive ProviderError where
  | executionError (msg : String)
  | requestFailed (msg : String)
deriving DecidableEq, Repr

/-- `Usage`: optional token counts; absence means "unknown", never zero. -/
structure Usage where
  input_tokens : Option Int
  output_tokens : Option Int
  total_tokens : Option Int
deriving DecidableEq, Repr

/-- `ProviderUsage`: the model that produced the usage, plus the counts. -/
structure ProviderUsage where
  model : String
  usage : Usage
deriving DecidableEq, Repr

/-- `ModelConfig` (the fields this core reads). -/
structure ModelConfig where
  model_name : String
  toolshim : Bool
deriving DecidableEq, Repr

/-! ### Byte-wise string comparison

Rust's `a.name.cmp(&b.name)` on `String` is byte-wise lexicographic; on valid
UTF-8 this coincides with code-point-wise lexicographic order, which we embed
as an executable comparison on the character lists underlying Lean strings. -/

/-- Lexicographic `≤` on character lists (code-point order = UTF-8 byte order). -/
def lexLe : List Char → List Char → Bool
  | [], _ => true
  | _ :: _, [] => false
  | a :: as, b :: bs => if a = b then lexLe as bs else decide (a < b)

/-- `hay` starts with `needle` (Rust `str::starts_with`). -/
def startsWithChars : List Char → List Char → Bool
  | _, [] => true
  | [], _ :: _ => false
  | a :: as, b :: bs => a = b && startsWithChars as bs

/-! ### Session metrics (§4.5, `update_session_metrics`) -/

/-- `i32::MIN`, i.e. -2^31. -/
def I32_MIN : Int := -2147483648

/-- `i32::MAX`, i.e. 2^31 - 1. -/
def I32_MAX : Int := 2147483647

/-- Two's-complement wrapping of an integer into the `i32` range
(add 2^31, reduce mod 2^32, subtract 2^31): the value `x + y` takes in the
source's `i32` addition when it overflows in a release build.  (A debug build
panics instead; in either case an overflowing addition does not produce the
mathematical sum.) -/
def wrap32 (x : Int) : Int := (x + 2147483648) % 4294967296 - 2147483648

/-- The closure `accumulate` defined inside `update_session_metrics`:
both present → their `i32` sum (wrapping, see `wrap32`), otherwise `a.or(b)`
(no arithmetic). -/
def accumulate (a b : Option Int) : Option Int :=
  match a, b with
  | some x, some y => some (wrap32 (x + y))
  | _, _ => a.or b

/-- The stored session rows this core reads and writes. -/
structure Session where
  schedule_id : Option String
  total_tokens : Option Int
  input_tokens : Option Int
  output_tokens : Option Int
  accumulated_total_tokens : Option Int
  accumulated_input_tokens : Option Int
  accumulated_output_tokens : Option Int
deriving DecidableEq, Repr

/-- `SessionConfig`: durable session id plus optional schedule id. -/
structure SessionConfig where
  id : String
  schedule_id : Option String
deriving DecidableEq, Repr

/-- The external session store, modelled as an association list keyed by id. -/
abbrev SessionStore : Type := List (String × Session)

/-- Modelled from the spec: `SessionManager::get_session(id, create_if_missing)`
lives outside src/.  Per the spec it is a key-value lookup; with
`create_if_missing = false` it fails when the session is absent, with `true`
it would return a fresh session instead. -/
def SessionManager.get_session (store : SessionStore) (id : String)
    (create_if_missing : Bool) : Except String Session :=
  match (List.lookup id (store : List (String × Session))) with
  | some s => Except.ok s
  | none =>
      if create_if_missing then
        Except.ok ⟨none, none, none, none, none, none, none⟩
      else
        Except.error ("session not found: " ++ id)

/-- The field assignments accepted by the `update_session(id)` builder. -/
structure SessionUpdate where
  schedule_id : Option String
  total_tokens : Option Int
  input_tokens : Option Int
  output_tokens : Option Int
  accumulated_total_tokens : Option Int
  accumulated_input_tokens : Option Int
  accumulated_output_tokens : Option Int
deriving DecidableEq, Repr

/-- Modelled from the spec: the builder's `apply()` persists the assigned
fields onto the stored session, failing if the session row is gone. -/
def SessionManager.apply_update (store : SessionStore) (id : String)
    (u : SessionUpdate) : Except String SessionStore :=
  match (List.lookup id (store : List (String × Session))) with
  | none => Except.error ("session not found: " ++ id)
  | some _ =>
      Except.ok ((store : List (String × Session)).map (fun kv =>
        if kv.1 = id then
          (kv.1, { schedule_id := u.schedule_id
                   total_tokens := u.total_tokens
                   input_tokens := u.input_tokens
                   output_tokens := u.output_tokens
                   accumulated_total_tokens := u.accumulated_total_tokens
                   accumulated_input_tokens := u.accumulated_input_tokens
                   accumulated_output_tokens := u.accumulated_output_tokens })
        else kv))

/-- `Agent::update_session_metrics`, state-passing: returns the call's result
together with the session store after the call (unchanged on the error path). -/
def update_session_metrics (store : SessionStore) (session_config : SessionConfig)
    (usage : ProviderUsage) : Except String Unit × SessionStore :=
  match SessionManager.get_session store session_config.id false with
  | Except.error e => (Except.error e, store)
  | Except.ok session =>
      let accumulated_total :=
        accumulate session.accumulated_total_tokens usage.usage.total_tokens
      let accumulated_input :=
        accumulate session.accumulated_input_tokens usage.usage.input_tokens
      let accumulated_output :=
        accumulate session.accumulated_output_tokens usage.usage.output_tokens
      match SessionManager.apply_update store session_config.id
        { schedule_id := session_config.schedule_id
          total_tokens := usage.usage.total_tokens
          input_tokens := usage.usage.input_tokens
          output_tokens := usage.usage.output_tokens
          accumulated_total_tokens := accumulated_total
          accumulated_input_tokens := accumulated_input
          accumulated_output_tokens := accumulated_output } with
      | Except.error e => (Except.error e, store)
      | Except.ok store2 => (Except.ok (), store2)

/-! ### Tool request categorizer (§4.4, `categorize_tool_requests`)

The frontend-tool registry membership test `is_frontend_tool(name)` is an
external collaborator; it is passed in as a pure predicate `isF`. -/

/-- The first pass of `categorize_tool_requests`: collect every `ToolRequest`
of the message content, in order. -/
def collectToolRequests (response : Message) : List ToolRequest :=
  response.content.filterMap (fun content =>
    match content with
    | MessageContent.toolRequest req => some req
    | _ => none)

/-- The `should_include` test of the filtering pass: keep everything except a
`ToolRequest` whose call parsed and whose name classifies as frontend. -/
def shouldInclude (isF : String → Bool) (content : MessageContent) : Bool :=
  match content with
  | MessageContent.toolRequest req =>
      match req.tool_call with
      | Except.ok tool_call => !(isF tool_call.name)
      | Except.error _ => true
  | _ => true

/-- The partitioning test of the final loop: a request is frontend iff its
call parsed and its name classifies as frontend (parse failures are not). -/
def isFrontendRequest (isF : String → Bool) (request : ToolRequest) : Bool :=
  match request.tool_call with
  | Except.ok tool_call => isF tool_call.name
  | Except.error _ => false

/-- `Agent::categorize_tool_requests`: returns
`(frontend_requests, other_requests, filtered_message)`.  The push-loops of
the source are order-preserving filters, embedded as such. -/
def categorize_tool_requests (isF : String → Bool) (response : Message) :
    List ToolRequest × List ToolRequest × Message :=
  let tool_requests := collectToolRequests response
  let filtered_content := response.content.filter (shouldInclude isF)
  let filtered_message : Message :=
    { role := response.role, created := response.created
      content := filtered_content, id := response.id }
  let frontend_requests := tool_requests.filter (isFrontendRequest isF)
  let other_requests := tool_requests.filter (fun r => !(isFrontendRequest isF r))
  (frontend_requests, other_requests, filtered_message)

/-! ### Tool & prompt preparer (§4.1, `prepare_tools_and_prompt`)

The router, the two tool listers, the frontend-tool registry, the prompt
builder and the subagent capability check are external collaborators; their
outputs enter as parameters.  The two tool-name constants live in modules
outside src/; their concrete values do not matter to the proofs, which only
use the prefix/equality relationships constructed in the statements. -/

/-- Modelled from the spec: the sub-agent execution tool's name constant
(`subagent_execution_tool::subagent_execute_task_tool`, not under src/). -/
def SUBAGENT_EXECUTE_TASK_TOOL_NAME : String := "subagent__execute_task"

/-- Modelled from the spec: the dynamic-task tool name prefix constant
`DYNAMIC_TASK_TOOL_NAME_PREFIX` (`recipe_tools::dynamic_task_tools`, not
under src/); its concrete value is immaterial to the proofs, which only use
equality/prefix relationships with it. -/
def DYNAMIC_TASK_TOOL_NAME_PREFIX_VAL : String := "dynamic_task"

/-- The `retain` predicate of the fallback branch: the source compares
`tool.name` with *equality* against both constants. -/
def retainTool (tool : Tool) : Bool :=
  decide (tool.name ≠ SUBAGENT_EXECUTE_TASK_TOOL_NAME) &&
    decide (tool.name ≠ DYNAMIC_TASK_TOOL_NAME_PREFIX_VAL)

/-- Lines 41-61 of the source: router listing, fallback with capability
filter, then frontend tools appended (no dedup). -/
def mergedTools (should_enabled_subagents : String → Bool) (router_enabled : Bool)
    (router_tools fallback_tools frontend_tools : List Tool)
    (model_name : String) : List Tool :=
  let tools := router_tools
  let tools :=
    if !router_enabled && tools.isEmpty then
      if !(should_enabled_subagents model_name) then
        fallback_tools.filter retainTool
      else
        fallback_tools
    else
      tools
  tools ++ frontend_tools

/-- Byte-wise ascending order on tool names, the comparator of
`tools.sort_by(|a, b| a.name.cmp(&b.name))`. -/
def toolNameLe (a b : Tool) : Prop := lexLe a.name.data b.name.data = true

instance : DecidableRel toolNameLe := fun a b => by
  unfold toolNameLe; infer_instance

instance : IsTotal Tool toolNameLe := by
  constructor
  have key : ∀ (a b : List Char), lexLe a b = true ∨ lexLe b a = true := by
    intro a
    induction a with
    | nil => intro b; left; rfl
    | cons x xs ih =>
      intro b
      cases b with
      | nil => right; rfl
      | cons y ys =>
        by_cases h : x = y
        · subst h; simp only [lexLe, if_pos rfl]; exact ih ys
        · have h2 : y ≠ x := fun hh => h hh.symm
          simp only [lexLe, if_neg h, if_neg h2, decide_eq_true_eq]
          exact lt_or_gt_of_ne h
  intro a b
  exact key a.name.data b.name.data

instance : IsTrans Tool toolNameLe := by
  constructor
  have key : ∀ (a b c : List Char),
      lexLe a b = true → lexLe b c = true → lexLe a c = true := by
    intro a
    induction a with
    | nil => intro b c _ _; rfl
    | cons x xs ih =>
      intro b c hab hbc
      cases b with
      | nil => simp [lexLe] at hab
      | cons y ys =>
        cases c with
        | nil => simp [lexLe] at hbc
        | cons z zs =>
          by_cases hxy : x = y
          · subst hxy
            simp only [lexLe, if_pos rfl] at hab
            by_cases hxz : x = z
            · subst hxz
              simp only [lexLe, if_pos rfl] at hbc ⊢
              exact ih ys zs hab hbc
            · simp only [lexLe, if_neg hxz] at hbc ⊢
              exact hbc
          · simp only [lexLe, if_neg hxy, decide_eq_true_eq] at hab
            by_cases hyz : y = z
            · subst hyz
              simp only [lexLe, if_neg hxy, decide_eq_true_eq]
              exact hab
            · simp only [lexLe, if_neg hyz, decide_eq_true_eq] at hbc
              have hxz : x < z := lt_trans hab hbc
              have hne : x ≠ z := ne_of_lt hxz
              simp only [lexLe, if_neg hne, decide_eq_true_eq]
              exact hxz
  intro a b c hab hbc
  exact key a.name.data b.name.data c.name.data hab hbc

/-- The stable by-name sort applied when the router is disabled
(`tools.sort_by(|a, b| a.name.cmp(&b.name))`).  Rust's `sort_by` is a stable
sort, so its output is determined by the comparator alone; it is embedded as
a stable insertion sort by the same comparator. -/
def sortToolsByName (tools : List Tool) : List Tool :=
  tools.insertionSort toolNameLe

/-- Modelled from the spec: `modify_system_prompt_for_tool_json` (toolshim
module, not under src/) rewrites the system prompt to append a textual
specification of every tool's schema.  The exact template is external; we
keep a fixed header followed by per-tool schema lines. -/
def TOOLSHIM_SCHEMA_HEADER : String := "\nAvailable tools in JSON schema:\n"

def toolSchemaText (tools : List Tool) : String :=
  TOOLSHIM_SCHEMA_HEADER ++
    String.intercalate "\n" (tools.map (fun t => t.name ++ ": " ++ t.input_schema))

def modify_system_prompt_for_tool_json (prompt : String) (tools : List Tool) : String :=
  prompt ++ toolSchemaText tools

/-- The prompt `s` contains the injected tool-schema text. -/
def containsSchemaText (s : String) : Prop :=
  ∃ pre post, s.data = pre ++ TOOLSHIM_SCHEMA_HEADER.data ++ post

/-- Result triple of `prepare_tools_and_prompt`. -/
structure PrepareResult where
  tools : List Tool
  toolshim_tools : List Tool
  system_prompt : String
deriving DecidableEq, Repr

/-- `Agent::prepare_tools_and_prompt`.  `base_prompt` stands for the prompt
the external builder produced from extension metadata/counts and the router
flag (line 79-85); the toolshim branch then mirrors lines 87-98. -/
def prepare_tools_and_prompt (should_enabled_subagents : String → Bool)
    (router_enabled : Bool) (router_tools fallback_tools frontend_tools : List Tool)
    (model_config : ModelConfig) (base_prompt : String) : PrepareResult :=
  let tools := mergedTools should_enabled_subagents router_enabled
    router_tools fallback_tools frontend_tools model_config.model_name
  let tools := if !router_enabled then sortToolsByName tools else tools
  if model_config.toolshim then
    { tools := []
      toolshim_tools := tools
      system_prompt := modify_system_prompt_for_tool_json base_prompt tools }
  else
    { tools := tools, toolshim_tools := [], system_prompt := base_prompt }

/-! ### Provider streaming adapter (§4.3, `stream_response_from_provider`)

The provider is an external collaborator; its observable outcomes for this
call (capability flag, stream-open result, one-shot completion result) enter
as data.  The outbound `convert_tool_messages_to_text` rewrite only changes
what is handed to the external provider, whose outcome is already given as
data, so it does not appear in the embedding.  The process-wide
`set_current_model` cell is purely observational per the spec and is not
tracked.  A `MessageStream` item is `Result<(Option<Message>,
Option<ProviderUsage>), ProviderError>`; the adapter's output stream is
embedded as the list of items it yields before finishing. -/

abbrev StreamItem : Type := Except ProviderError (Option Message × Option ProviderUsage)

/-- The provider's observable behavior for one call. -/
structure ProviderBehavior where
  model_config : ModelConfig
  supports_streaming : Bool
  stream_result : Except ProviderError (List StreamItem)
  complete_result : Except ProviderError (Message × ProviderUsage)

/-- Modelled from the spec: the toolshim interpreter's observable outcomes —
construction (`OllamaInterpreter::new`) may fail, augmentation may fail. -/
structure ToolshimInterp where
  new_result : Except String Unit
  augment : Message → List Tool → Except String Message

/-- `toolshim_postprocess` (top of reply_parts.rs): construct the interpreter
(construction failure wrapped as an execution error), then augment the
message with extracted tool calls (failure wrapped likewise). -/
def toolshim_postprocess (interp : ToolshimInterp) (response : Message)
    (toolshim_tools : List Tool) : Except ProviderError Message :=
  match interp.new_result with
  | Except.error e =>
      Except.error (ProviderError.executionError
        ("Failed to create OllamaInterpreter: " ++ e))
  | Except.ok _ =>
      match interp.augment response toolshim_tools with
      | Except.ok m => Except.ok m
      | Except.error e =>
          Except.error (ProviderError.executionError
            ("Failed to augment message: " ++ e))

/-- Modelled from the spec: `stream_from_single_message` (providers::base, not
under src/) wraps a one-shot completion result as a one-item stream. -/
def stream_from_single_message (message : Message) (usage : ProviderUsage) :
    List StreamItem :=
  [Except.ok (some message, some usage)]

/-- The `try_stream!` loop of lines 167-181: `while let Some(Ok((message,
usage)))` consumes `Ok` items only — the loop (and hence the output stream)
ends at the first `Err` item of the native stream, without yielding it; a
toolshim postprocess failure is yielded (via `?`) as the final item. -/
def processStream (config : ModelConfig) (interp : ToolshimInterp)
    (toolshim_tools : List Tool) : List StreamItem → List StreamItem
  | [] => []
  | Except.error _ :: _ => []
  | Except.ok (none, usage) :: rest =>
      Except.ok (none, usage) :: processStream config interp toolshim_tools rest
  | Except.ok (some m, usage) :: rest =>
      if config.toolshim then
        match toolshim_postprocess interp m toolshim_tools with
        | Except.error e => [Except.error e]
        | Except.ok m2 =>
            Except.ok (some m2, usage) ::
              processStream config interp toolshim_tools rest
      else
        Except.ok (some m, usage) :: processStream config interp toolshim_tools rest

/-- `Agent::stream_response_from_provider`: pick native streaming or wrapped
one-shot completion; a failure opening the stream (or completing) becomes an
`Ok` return whose stream immediately yields that error (lines 155-165);
otherwise the output is the processed native stream. -/
def stream_response_from_provider (provider : ProviderBehavior)
    (interp : ToolshimInterp) (toolshim_tools : List Tool) :
    Except ProviderError (List StreamItem) :=
  let config := provider.model_config
  let stream_result :=
    if provider.supports_streaming then
      provider.stream_result
    else
      match provider.complete_result with
      | Except.ok (message, usage) =>
          Except.ok (stream_from_single_message message usage)
      | Except.error e => Except.error e
  match stream_result with
  | Except.ok s => Except.ok (processStream config interp toolshim_tools s)
  | Except.error e => Except.ok [Except.error e]

/-! ## Helper lemmas -/

/-- When toolshim is disabled, the adapter loop copies Ok items through and
stops at the first Err item of the native stream without yielding it. -/
theorem processStream_toolshim_off_stops_before_error (config : ModelConfig)
    (interp : ToolshimInterp) (toolshim_tools : List Tool)
    (hts : config.toolshim = false) (pre : List StreamItem)
    (hpre : ∀ x ∈ pre, x.isOk = true) (e : ProviderError) (post : List StreamItem) :
    processStream config interp toolshim_tools (pre ++ Except.error e :: post) = pre := by
  revert hpre
  induction pre with
  | nil => intro _; simp [processStream]
  | cons x xs ih =>
    intro hpre
    have hx := hpre x (List.mem_cons_self x xs)
    have hrest : ∀ y ∈ xs, y.isOk = true :=
      fun y hy => hpre y (List.mem_cons_of_mem x hy)
    cases x with
    | error err => simp [Except.isOk, Except.toBool] at hx
    | ok p =>
      obtain ⟨message, usage⟩ := p
      cases message with
      | none =>
        simp only [List.cons_append, processStream, List.append_eq]
        rw [ih hrest]
      | some m =>
        simp only [List.cons_append, processStream, hts, if_false, Bool.false_eq_true,
          List.append_eq]
        rw [ih hrest]

/-- The toolshim prompt rewrite makes the schema text a substring. -/
theorem containsSchemaText_modify (prompt : String) (tools : List Tool) :
    containsSchemaText (modify_system_prompt_for_tool_json prompt tools) := by
  refine ⟨prompt.data,
    (String.intercalate "\n"
      (tools.map (fun t => t.name ++ ": " ++ t.input_schema))).data, ?_⟩
  simp [modify_system_prompt_for_tool_json, toolSchemaText, String.data_append,
    List.append_assoc]

/-- Wrapping is the identity on values representable in `i32`. -/
theorem wrap32_eq_self (x : Int) (h1 : I32_MIN ≤ x) (h2 : x ≤ I32_MAX) :
    wrap32 x = x := by
  unfold wrap32
  unfold I32_MIN at h1
  unfold I32_MAX at h2
  have h3 : (0 : Int) ≤ x + 2147483648 := by omega
  have h4 : x + 2147483648 < 4294967296 := by omega
  rw [Int.emod_eq_of_lt h3 h4]
  omega

/-- The empty prompt carries no injected schema text. -/
theorem not_containsSchemaText_empty : ¬ containsSchemaText "" := by
  rintro ⟨pre, post, h⟩
  have h2 : pre ++ TOOLSHIM_SCHEMA_HEADER.data ++ post = ([] : List Char) := h.symm
  rcases List.append_eq_nil.mp h2 with ⟨h3, -⟩
  rcases List.append_eq_nil.mp h3 with ⟨-, h4⟩
  have hne : TOOLSHIM_SCHEMA_HEADER.data ≠ [] := by decide
  exact hne h4

/-! ## Claims -/

/-- C1, counterexample: a provider error produced mid-stream (an Err item of
the native stream after one Ok item) is NOT delivered as the terminal item of
the adapter's output — the output consists of the preceding Ok item only, and
the error appears nowhere in it.  This refutes the claim that every per-chunk
receive error is yielded as the final sequence element. -/
theorem midstream_error_dropped :
    stream_response_from_provider
        ⟨⟨"gpt", false⟩, true,
          Except.ok [Except.ok (none, none),
            Except.error (ProviderError.requestFailed "mid-stream failure")],
          Except.ok (⟨Role.assistant, 0, [], none⟩, ⟨"gpt", ⟨none, none, none⟩⟩)⟩
        ⟨Except.ok (), fun m _ => Except.ok m⟩ [] =
      Except.ok [Except.ok (none, none)] ∧
    (Except.error (ProviderError.requestFailed "mid-stream failure") : StreamItem) ∉
      ([Except.ok (none, none)] : List StreamItem) := by
  constructor
  · rfl
  · decide

/-- C1, amended: the adapter's entry point still never fails synchronously
(it returns Ok), and stream-open / one-shot errors are delivered as the sole
output item (see C2); but an Err item produced mid-stream by the provider's
native stream is dropped: with toolshim disabled the output is exactly the
Ok items preceding the first Err, and that error is never delivered. -/
theorem provider_errors_stream_delivery_amended
    (provider : ProviderBehavior) (interp : ToolshimInterp) (toolshim_tools : List Tool)
    (e : ProviderError) (pre post : List StreamItem)
    (hs : provider.supports_streaming = true)
    (hts : provider.model_config.toolshim = false)
    (hr : provider.stream_result = Except.ok (pre ++ Except.error e :: post))
    (hpre : ∀ x ∈ pre, x.isOk = true) :
    stream_response_from_provider provider interp toolshim_tools = Except.ok pre ∧
    Except.error e ∉ pre := by
  have hmain : stream_response_from_provider provider interp toolshim_tools =
      Except.ok pre := by
    unfold stream_response_from_provider
    simp only [hs, if_true, hr]
    exact congrArg Except.ok
      (processStream_toolshim_off_stops_before_error provider.model_config interp
        toolshim_tools hts pre hpre e post)
  refine ⟨hmain, ?_⟩
  intro hmem
  have hbad := hpre _ hmem
  simp [Except.isOk, Except.toBool] at hbad

/-- C1, witness for the amended theorem at a concrete provider behavior. -/
theorem provider_errors_stream_delivery_amended_witness :
    stream_response_from_provider
        ⟨⟨"gpt", false⟩, true,
          Except.ok [Except.ok (none, none),
            Except.error (ProviderError.requestFailed "late")],
          Except.ok (⟨Role.assistant, 0, [], none⟩, ⟨"gpt", ⟨none, none, none⟩⟩)⟩
        ⟨Except.ok (), fun m _ => Except.ok m⟩ [] =
      Except.ok [Except.ok (none, none)] ∧
    (Except.error (ProviderError.requestFailed "late") : StreamItem) ∉
      ([Except.ok (none, none)] : List StreamItem) :=
  provider_errors_stream_delivery_amended
    ⟨⟨"gpt", false⟩, true,
      Except.ok [Except.ok (none, none),
        Except.error (ProviderError.requestFailed "late")],
      Except.ok (⟨Role.assistant, 0, [], none⟩, ⟨"gpt", ⟨none, none, none⟩⟩)⟩
    ⟨Except.ok (), fun m _ => Except.ok m⟩ []
    (ProviderError.requestFailed "late") [Except.ok (none, none)] []
    rfl rfl rfl (by decide)

/-- C2: if the stream-open call (streaming providers) or the one-shot
completion (non-streaming providers) fails with error `e`, the adapter's call
returns Ok — no synchronous failure — and the output sequence yields exactly
one item, the error `e`. -/
theorem stream_open_failure_single_error_item
    (provider : ProviderBehavior) (interp : ToolshimInterp) (toolshim_tools : List Tool)
    (e : ProviderError)
    (h : (provider.supports_streaming = true ∧ provider.stream_result = Except.error e) ∨
      (provider.supports_streaming = false ∧ provider.complete_result = Except.error e)) :
    stream_response_from_provider provider interp toolshim_tools =
      Except.ok [Except.error e] := by
  unfold stream_response_from_provider
  rcases h with ⟨hs, he⟩ | ⟨hs, he⟩ <;> simp [hs, he]

/-- C2, witness: a concrete streaming provider whose stream-open fails. -/
theorem stream_open_failure_single_error_item_witness :
    stream_response_from_provider
        ⟨⟨"gpt", false⟩, true, Except.error (ProviderError.requestFailed "boom"),
          Except.ok (⟨Role.assistant, 0, [], none⟩, ⟨"gpt", ⟨none, none, none⟩⟩)⟩
        ⟨Except.ok (), fun m _ => Except.ok m⟩ [] =
      Except.ok [Except.error (ProviderError.requestFailed "boom")] :=
  stream_open_failure_single_error_item _ _ _ _ (Or.inl ⟨rfl, rfl⟩)

/-- C3, counterexample: the fallback filter removes tools by *name equality*
with the dynamic-task prefix constant, not by prefix match — a tool whose
name merely starts with the prefix survives the filter and is returned,
contradicting the claim that every such tool is removed.  (Router disabled,
router listing empty, model not flagged for sub-agent tools.) -/
theorem dynamic_task_prefix_match_counterexample :
    startsWithChars (DYNAMIC_TASK_TOOL_NAME_PREFIX_VAL ++ "_create").data
      DYNAMIC_TASK_TOOL_NAME_PREFIX_VAL.data = true ∧
    (⟨DYNAMIC_TASK_TOOL_NAME_PREFIX_VAL ++ "_create", "", ""⟩ : Tool) ∈
      (prepare_tools_and_prompt (fun _ => false) false []
        [⟨DYNAMIC_TASK_TOOL_NAME_PREFIX_VAL ++ "_create", "", ""⟩] []
        ⟨"m", false⟩ "p").tools := by
  constructor
  · decide
  · decide

/-- C3, amended: in the fallback (router disabled, empty router listing,
model not flagged for sub-agent tools), a tool is returned iff it is a
fallback tool whose name differs from BOTH constants — the sub-agent
execution tool name and the dynamic-task prefix constant, compared by exact
equality, not prefix match — or it is a frontend tool. -/
theorem fallback_filter_exact_equality (se : String → Bool)
    (fallback_tools frontend_tools : List Tool) (model_config : ModelConfig)
    (base_prompt : String) (hse : se model_config.model_name = false)
    (hts : model_config.toolshim = false) :
    ∀ t : Tool,
      t ∈ (prepare_tools_and_prompt se false [] fallback_tools frontend_tools
        model_config base_prompt).tools ↔
      ((t ∈ fallback_tools ∧ t.name ≠ SUBAGENT_EXECUTE_TASK_TOOL_NAME ∧
          t.name ≠ DYNAMIC_TASK_TOOL_NAME_PREFIX_VAL) ∨ t ∈ frontend_tools) := by
  intro t
  simp only [prepare_tools_and_prompt, hts, Bool.false_eq_true, if_false,
    Bool.not_false, if_true, sortToolsByName]
  rw [(List.perm_insertionSort toolNameLe _).mem_iff]
  simp [mergedTools, hse, retainTool, List.mem_filter, and_assoc]

/-- C3, witness for the amended theorem: a tool named exactly like the
prefix constant is filtered out while one merely starting with it stays. -/
theorem fallback_filter_exact_equality_witness :
    (⟨DYNAMIC_TASK_TOOL_NAME_PREFIX_VAL ++ "_create", "", ""⟩ : Tool) ∈
      (prepare_tools_and_prompt (fun _ => false) false []
        [⟨DYNAMIC_TASK_TOOL_NAME_PREFIX_VAL, "", ""⟩,
          ⟨DYNAMIC_TASK_TOOL_NAME_PREFIX_VAL ++ "_create", "", ""⟩] []
        ⟨"m", false⟩ "p").tools ↔
    (((⟨DYNAMIC_TASK_TOOL_NAME_PREFIX_VAL ++ "_create", "", ""⟩ : Tool) ∈
        [(⟨DYNAMIC_TASK_TOOL_NAME_PREFIX_VAL, "", ""⟩ : Tool),
          ⟨DYNAMIC_TASK_TOOL_NAME_PREFIX_VAL ++ "_create", "", ""⟩] ∧
        (DYNAMIC_TASK_TOOL_NAME_PREFIX_VAL ++ "_create") ≠ SUBAGENT_EXECUTE_TASK_TOOL_NAME ∧
        (DYNAMIC_TASK_TOOL_NAME_PREFIX_VAL ++ "_create") ≠ DYNAMIC_TASK_TOOL_NAME_PREFIX_VAL) ∨
      (⟨DYNAMIC_TASK_TOOL_NAME_PREFIX_VAL ++ "_create", "", ""⟩ : Tool) ∈ ([] : List Tool)) :=
  fallback_filter_exact_equality (fun _ => false)
    [⟨DYNAMIC_TASK_TOOL_NAME_PREFIX_VAL, "", ""⟩,
      ⟨DYNAMIC_TASK_TOOL_NAME_PREFIX_VAL ++ "_create", "", ""⟩] []
    ⟨"m", false⟩ "p" rfl rfl
    ⟨DYNAMIC_TASK_TOOL_NAME_PREFIX_VAL ++ "_create", "", ""⟩

/-- C4: with toolshim enabled the returned tools list is empty, the
toolshim_tools snapshot equals the merged (and, router disabled, sorted)
list computed just before clearing, and the system prompt contains the
injected tool-schema text; with toolshim disabled, toolshim_tools is empty,
tools is that list, and the prompt (which carried no schema text) still
contains none. -/
theorem prepare_toolshim_behavior (se : String → Bool) (router_enabled : Bool)
    (router_tools fallback_tools frontend_tools : List Tool)
    (model_config : ModelConfig) (base_prompt : String)
    (hbase : ¬ containsSchemaText base_prompt) :
    (model_config.toolshim = true →
      (prepare_tools_and_prompt se router_enabled router_tools fallback_tools
          frontend_tools model_config base_prompt).tools = [] ∧
      (prepare_tools_and_prompt se router_enabled router_tools fallback_tools
          frontend_tools model_config base_prompt).toolshim_tools =
        (if !router_enabled then
          sortToolsByName (mergedTools se router_enabled router_tools fallback_tools
            frontend_tools model_config.model_name)
        else
          mergedTools se router_enabled router_tools fallback_tools frontend_tools
            model_config.model_name) ∧
      containsSchemaText
        (prepare_tools_and_prompt se router_enabled router_tools fallback_tools
          frontend_tools model_config base_prompt).system_prompt) ∧
    (model_config.toolshim = false →
      (prepare_tools_and_prompt se router_enabled router_tools fallback_tools
          frontend_tools model_config base_prompt).toolshim_tools = [] ∧
      (prepare_tools_and_prompt se router_enabled router_tools fallback_tools
          frontend_tools model_config base_prompt).tools =
        (if !router_enabled then
          sortToolsByName (mergedTools se router_enabled router_tools fallback_tools
            frontend_tools model_config.model_name)
        else
          mergedTools se router_enabled router_tools fallback_tools frontend_tools
            model_config.model_name) ∧
      ¬ containsSchemaText
        (prepare_tools_and_prompt se router_enabled router_tools fallback_tools
          frontend_tools model_config base_prompt).system_prompt) := by
  constructor
  · intro ht
    simp only [prepare_tools_and_prompt, ht, if_true]
    exact ⟨trivial, trivial, containsSchemaText_modify _ _⟩
  · intro ht
    simp only [prepare_tools_and_prompt, ht, Bool.false_eq_true, if_false]
    exact ⟨trivial, trivial, hbase⟩

/-- C4, witness at a toolshim-enabled model config and schema-free prompt. -/
theorem prepare_toolshim_behavior_witness :
    (prepare_tools_and_prompt (fun _ => true) true [] [] [] ⟨"m", true⟩ "").tools = [] ∧
    (prepare_tools_and_prompt (fun _ => true) true [] [] [] ⟨"m", true⟩ "").toolshim_tools =
      (if !true then sortToolsByName (mergedTools (fun _ => true) true [] [] [] "m")
       else mergedTools (fun _ => true) true [] [] [] "m") ∧
    containsSchemaText
      (prepare_tools_and_prompt (fun _ => true) true [] [] [] ⟨"m", true⟩ "").system_prompt :=
  (prepare_toolshim_behavior (fun _ => true) true [] [] [] ⟨"m", true⟩ ""
    not_containsSchemaText_empty).1 rfl

/-- C5: categorization is a total partition — frontend_requests and
other_requests together are, as a multiset, exactly the ToolRequest items of
the message content, the two lists are disjoint, and each is a sublist of
the original request sequence (order preserved). -/
theorem categorize_tool_requests_partition (isF : String → Bool) (response : Message) :
    ((((categorize_tool_requests isF response).1 ++
        (categorize_tool_requests isF response).2.1) : Multiset ToolRequest) =
      ((collectToolRequests response) : Multiset ToolRequest)) ∧
    List.Disjoint (categorize_tool_requests isF response).1
      (categorize_tool_requests isF response).2.1 ∧
    (categorize_tool_requests isF response).1.Sublist (collectToolRequests response) ∧
    (categorize_tool_requests isF response).2.1.Sublist (collectToolRequests response) := by
  simp only [categorize_tool_requests]
  refine ⟨?_, ?_, List.filter_sublist _, List.filter_sublist _⟩
  · exact Multiset.coe_eq_coe.mpr (List.filter_append_perm _ _)
  · intro r hr hro
    have h1 := List.of_mem_filter hr
    have h2 := List.of_mem_filter hro
    rw [h1] at h2
    simp at h2

/-- C5, witness at a concrete two-request assistant message. -/
theorem categorize_tool_requests_partition_witness :
    ((((categorize_tool_requests (fun n => n = "fe")
        ⟨Role.assistant, 0, [MessageContent.toolRequest ⟨"1", Except.ok ⟨"fe", ""⟩⟩,
          MessageContent.toolRequest ⟨"2", Except.ok ⟨"be", ""⟩⟩], none⟩).1 ++
        (categorize_tool_requests (fun n => n = "fe")
        ⟨Role.assistant, 0, [MessageContent.toolRequest ⟨"1", Except.ok ⟨"fe", ""⟩⟩,
          MessageContent.toolRequest ⟨"2", Except.ok ⟨"be", ""⟩⟩], none⟩).2.1) : Multiset ToolRequest) =
      ((collectToolRequests
        ⟨Role.assistant, 0, [MessageContent.toolRequest ⟨"1", Except.ok ⟨"fe", ""⟩⟩,
          MessageContent.toolRequest ⟨"2", Except.ok ⟨"be", ""⟩⟩], none⟩) : Multiset ToolRequest)) ∧
    List.Disjoint (categorize_tool_requests (fun n => n = "fe")
        ⟨Role.assistant, 0, [MessageContent.toolRequest ⟨"1", Except.ok ⟨"fe", ""⟩⟩,
          MessageContent.toolRequest ⟨"2", Except.ok ⟨"be", ""⟩⟩], none⟩).1
      (categorize_tool_requests (fun n => n = "fe")
        ⟨Role.assistant, 0, [MessageContent.toolRequest ⟨"1", Except.ok ⟨"fe", ""⟩⟩,
          MessageContent.toolRequest ⟨"2", Except.ok ⟨"be", ""⟩⟩], none⟩).2.1 ∧
    (categorize_tool_requests (fun n => n = "fe")
        ⟨Role.assistant, 0, [MessageContent.toolRequest ⟨"1", Except.ok ⟨"fe", ""⟩⟩,
          MessageContent.toolRequest ⟨"2", Except.ok ⟨"be", ""⟩⟩], none⟩).1.Sublist
      (collectToolRequests
        ⟨Role.assistant, 0, [MessageContent.toolRequest ⟨"1", Except.ok ⟨"fe", ""⟩⟩,
          MessageContent.toolRequest ⟨"2", Except.ok ⟨"be", ""⟩⟩], none⟩) ∧
    (categorize_tool_requests (fun n => n = "fe")
        ⟨Role.assistant, 0, [MessageContent.toolRequest ⟨"1", Except.ok ⟨"fe", ""⟩⟩,
          MessageContent.toolRequest ⟨"2", Except.ok ⟨"be", ""⟩⟩], none⟩).2.1.Sublist
      (collectToolRequests
        ⟨Role.assistant, 0, [MessageContent.toolRequest ⟨"1", Except.ok ⟨"fe", ""⟩⟩,
          MessageContent.toolRequest ⟨"2", Except.ok ⟨"be", ""⟩⟩], none⟩) :=
  categorize_tool_requests_partition (fun n => n = "fe")
    ⟨Role.assistant, 0, [MessageContent.toolRequest ⟨"1", Except.ok ⟨"fe", ""⟩⟩,
      MessageContent.toolRequest ⟨"2", Except.ok ⟨"be", ""⟩⟩], none⟩

/-- C6, counterexample: at `i32::MAX` and `1` the source's `i32` addition
overflows — it wraps to `i32::MIN` (a debug build would panic) — so
accumulate does NOT yield the mathematical sum 2147483648, refuting the
unconditional "both present yields their sum". -/
theorem accumulate_overflow_counterexample :
    accumulate (some 2147483647) (some 1) = some (-2147483648) ∧
    accumulate (some 2147483647) (some 1) ≠ some 2147483648 := by
  constructor
  · decide
  · decide

/-- C6, amended: with both counts present, accumulate yields their `i32`
wrapping sum, which equals their mathematical sum whenever that sum is
representable in `i32`; with exactly one present it yields that value
unchanged (no arithmetic); with both absent it yields absent — absence is
never coerced to zero — and the spec's three concrete examples hold. -/
theorem accumulate_option_merge_wrapping :
    (∀ x y : Int, accumulate (some x) (some y) = some (wrap32 (x + y))) ∧
    (∀ x y : Int, I32_MIN ≤ x + y → x + y ≤ I32_MAX →
      accumulate (some x) (some y) = some (x + y)) ∧
    (∀ x : Int, accumulate (some x) none = some x) ∧
    (∀ y : Int, accumulate none (some y) = some y) ∧
    accumulate none none = none ∧
    accumulate (some 3) none = some 3 ∧
    accumulate (some 2) (some 5) = some 7 := by
  refine ⟨fun _ _ => rfl, ?_, fun _ => rfl, fun _ => rfl, rfl, rfl, by decide⟩
  intro x y h1 h2
  show some (wrap32 (x + y)) = some (x + y)
  rw [wrap32_eq_self (x + y) h1 h2]

/-- C6, witness: the in-range sum conjunct applied at the spec's example
`accumulate(Some(2), Some(5)) = Some(7)`. -/
theorem accumulate_option_merge_wrapping_witness :
    accumulate (some 2) (some 5) = some 7 :=
  accumulate_option_merge_wrapping.2.1 2 5 (by decide) (by decide)

/-- C7: a ToolRequest whose tool_call failed to parse always lands in
other_requests, never in frontend_requests, and is always retained in the
filtered message, for every classifier; and only a request whose call parsed
with a frontend-classified name reaches frontend_requests, such a request
being removed from the filtered message. -/
theorem parse_failed_request_always_other (isF : String → Bool) (response : Message)
    (req : ToolRequest) (err : String) (he : req.tool_call = Except.error err) :
    (req ∈ collectToolRequests response →
      req ∈ (categorize_tool_requests isF response).2.1) ∧
    req ∉ (categorize_tool_requests isF response).1 ∧
    (MessageContent.toolRequest req ∈ response.content →
      MessageContent.toolRequest req ∈
        (categorize_tool_requests isF response).2.2.content) ∧
    (∀ r, r ∈ (categorize_tool_requests isF response).1 →
      (∃ tc, r.tool_call = Except.ok tc ∧ isF tc.name = true) ∧
        MessageContent.toolRequest r ∉
          (categorize_tool_requests isF response).2.2.content) := by
  simp only [categorize_tool_requests]
  refine ⟨?_, ?_, ?_, ?_⟩
  · intro hmem
    refine List.mem_filter.mpr ⟨hmem, ?_⟩
    simp [isFrontendRequest, he]
  · intro hmem
    have hf := List.of_mem_filter hmem
    simp [isFrontendRequest, he] at hf
  · intro hmem
    refine List.mem_filter.mpr ⟨hmem, ?_⟩
    simp [shouldInclude, he]
  · intro r hr
    have hfr := List.of_mem_filter hr
    cases htc : r.tool_call with
    | error e2 => simp [isFrontendRequest, htc] at hfr
    | ok tc =>
      have hisF : isF tc.name = true := by
        simpa [isFrontendRequest, htc] using hfr
      refine ⟨⟨tc, rfl, hisF⟩, ?_⟩
      intro hmem
      have hsi := List.of_mem_filter hmem
      simp [shouldInclude, htc, hisF] at hsi

/-- C7, witness: a parse-failed request under a classifier that would accept
any name — it still lands in other_requests and stays in the message. -/
theorem parse_failed_request_always_other_witness :
    (⟨"1", Except.error "bad json"⟩ : ToolRequest) ∈
      (categorize_tool_requests (fun _ => true)
        ⟨Role.assistant, 0,
          [MessageContent.toolRequest ⟨"1", Except.error "bad json"⟩], none⟩).2.1 ∧
    (⟨"1", Except.error "bad json"⟩ : ToolRequest) ∉
      (categorize_tool_requests (fun _ => true)
        ⟨Role.assistant, 0,
          [MessageContent.toolRequest ⟨"1", Except.error "bad json"⟩], none⟩).1 ∧
    MessageContent.toolRequest ⟨"1", Except.error "bad json"⟩ ∈
      (categorize_tool_requests (fun _ => true)
        ⟨Role.assistant, 0,
          [MessageContent.toolRequest ⟨"1", Except.error "bad json"⟩], none⟩).2.2.content := by
  have h := parse_failed_request_always_other (fun _ => true)
    ⟨Role.assistant, 0,
      [MessageContent.toolRequest ⟨"1", Except.error "bad json"⟩], none⟩
    ⟨"1", Except.error "bad json"⟩ "bad json" rfl
  exact ⟨h.1 (by decide), h.2.1, h.2.2.1 (by decide)⟩

/-- C8: with toolshim disabled, when the router is disabled the returned
tools are a permutation of the merged list (listed tools plus appended
frontend tools) sorted ascending byte-wise by tool name; when the router is
enabled the merged list's order is returned untouched. -/
theorem tools_sorted_iff_router_disabled (se : String → Bool) (router_enabled : Bool)
    (router_tools fallback_tools frontend_tools : List Tool)
    (model_config : ModelConfig) (base_prompt : String)
    (hts : model_config.toolshim = false) :
    (router_enabled = false →
      List.Perm
        (prepare_tools_and_prompt se router_enabled router_tools fallback_tools
          frontend_tools model_config base_prompt).tools
        (mergedTools se router_enabled router_tools fallback_tools frontend_tools
          model_config.model_name) ∧
      List.Sorted toolNameLe
        (prepare_tools_and_prompt se router_enabled router_tools fallback_tools
          frontend_tools model_config base_prompt).tools) ∧
    (router_enabled = true →
      (prepare_tools_and_prompt se router_enabled router_tools fallback_tools
        frontend_tools model_config base_prompt).tools =
      mergedTools se router_enabled router_tools fallback_tools frontend_tools
        model_config.model_name) := by
  constructor
  · intro hre
    subst hre
    simp only [prepare_tools_and_prompt, hts, Bool.false_eq_true, if_false,
      Bool.not_false, if_true, sortToolsByName]
    exact ⟨List.perm_insertionSort _ _, List.sorted_insertionSort _ _⟩
  · intro hre
    subst hre
    simp [prepare_tools_and_prompt, hts]

/-- C8, witness on the spec's example names, plus the concrete sort:
`[z_tool, a_tool, m_tool]` sorts to `[a_tool, m_tool, z_tool]`. -/
theorem tools_sorted_iff_router_disabled_witness :
    (List.Perm
      (prepare_tools_and_prompt (fun _ => true) false []
        [⟨"z_tool", "", ""⟩, ⟨"a_tool", "", ""⟩, ⟨"m_tool", "", ""⟩] []
        ⟨"m", false⟩ "p").tools
      (mergedTools (fun _ => true) false []
        [⟨"z_tool", "", ""⟩, ⟨"a_tool", "", ""⟩, ⟨"m_tool", "", ""⟩] [] "m") ∧
    List.Sorted toolNameLe
      (prepare_tools_and_prompt (fun _ => true) false []
        [⟨"z_tool", "", ""⟩, ⟨"a_tool", "", ""⟩, ⟨"m_tool", "", ""⟩] []
        ⟨"m", false⟩ "p").tools) ∧
    sortToolsByName [⟨"z_tool", "", ""⟩, ⟨"a_tool", "", ""⟩, ⟨"m_tool", "", ""⟩] =
      [⟨"a_tool", "", ""⟩, ⟨"m_tool", "", ""⟩, ⟨"z_tool", "", ""⟩] :=
  ⟨(tools_sorted_iff_router_disabled (fun _ => true) false []
      [⟨"z_tool", "", ""⟩, ⟨"a_tool", "", ""⟩, ⟨"m_tool", "", ""⟩] []
      ⟨"m", false⟩ "p" rfl).1 rfl, by decide⟩

/-- C9: categorization is idempotent on its own output — re-running it on
the filtered message it produced yields an empty frontend_requests list. -/
theorem categorize_tool_requests_idempotent (isF : String → Bool) (response : Message) :
    (categorize_tool_requests isF
      (categorize_tool_requests isF response).2.2).1 = [] := by
  simp only [categorize_tool_requests, collectToolRequests]
  rw [List.filter_eq_nil_iff]
  intro r hr
  obtain ⟨c, hc, hcr⟩ := List.mem_filterMap.mp hr
  have hinc := List.of_mem_filter hc
  cases c with
  | text s => simp at hcr
  | toolResponse i p => simp at hcr
  | other p => simp at hcr
  | toolRequest req =>
    have hreq : req = r := by simpa using hcr
    subst hreq
    cases htc : req.tool_call with
    | error e =>
      simp [isFrontendRequest, htc]
    | ok tc =>
      have hf : isF tc.name = false := by
        simpa [shouldInclude, htc] using hinc
      simp [isFrontendRequest, htc, hf]

/-- C10: update_session_metrics is atomic on lookup failure — if the
non-creating session lookup fails, the call returns that error and the
session store is unchanged (the update builder is never applied). -/
theorem update_session_metrics_no_write_on_lookup_failure
    (store : SessionStore) (session_config : SessionConfig) (usage : ProviderUsage)
    (e : String)
    (h : SessionManager.get_session store session_config.id false = Except.error e) :
    update_session_metrics store session_config usage = (Except.error e, store) := by
  unfold update_session_metrics
  rw [h]

/-- C10, witness: lookup in the empty store fails and the store is returned
unchanged. -/
theorem update_session_metrics_no_write_on_lookup_failure_witness :
    SessionManager.get_session ([] : SessionStore) "sess-1" false =
      Except.error ("session not found: " ++ "sess-1") ∧
    update_session_metrics ([] : SessionStore) ⟨"sess-1", none⟩
        ⟨"gpt", ⟨some 1, some 2, some 3⟩⟩ =
      (Except.error ("session not found: " ++ "sess-1"), ([] : SessionStore)) :=
  ⟨rfl, update_session_metrics_no_write_on_lookup_failure [] ⟨"sess-1", none⟩
      ⟨"gpt", ⟨some 1, some 2, some 3⟩⟩ ("session not found: " ++ "sess-1") rfl⟩
